import Mathlib

/-!
Verification of the Proto3D rotating-cube demo (`src/main.cpp`).

The development shallowly embeds the shader-program pipeline of the demo:
the shader source splitter (`parse_shader`), the stage compiler
(`compile_shader`), the program linker (`create_shaders`), and the
per-frame render loop of `main`, and proves the spec's claims about them.
-/

/-! ## Substring search

`std::string::find(pat) != std::string::npos` is substring containment;
we model it over the character lists of the strings. -/

/-- `pat` occurs at the very start of `s` (both as character lists). -/
def beginsWith : List Char → List Char → Bool
  | _, [] => true
  | [], _ :: _ => false
  | c :: cs, p :: ps => c = p && beginsWith cs ps

/-- `pat` occurs somewhere inside `s` (both as character lists). -/
def hasSub : List Char → List Char → Bool
  | [], p => p.isEmpty
  | c :: cs, p => beginsWith (c :: cs) p || hasSub cs p

/-- `s.find(pat) != std::string::npos` of the C++ source. -/
def containsSub (s pat : String) : Bool :=
  hasSub s.toList pat.toList

/-! ## Shader source splitter (`parse_shader`, main.cpp lines 20-41)

The C++ code scans the file line by line: a line containing `"#shader"`
switches the current `ShaderType` (checking for the substring `"vertex"`
first, then `"fragment"`); every other line is appended, plus a newline,
to `ss[(int)type]`.  `type` starts at `kNone = -1`, so a body line seen
before any marker writes out of bounds (`ss[-1]`), which is undefined
behavior; the embedding makes that case explicit as `SplitResult.oobWrite`. -/

/-- `enum class ShaderType { kNone = -1, kVertex = 0, kFragment = 1 }`. -/
inductive ShaderType where
  | kNone
  | kVertex
  | kFragment
deriving DecidableEq

/-- `struct ShaderProgramSource { std::string vertex_source; std::string fragment_source; }`. -/
structure ShaderProgramSource where
  vertex_source : String
  fragment_source : String
deriving DecidableEq

/-- Outcome of the splitter: either the two accumulated stage strings, or
the out-of-bounds write `ss[(int)kNone] << line` the C++ performs when a
body line arrives before any marker (undefined behavior in the source). -/
inductive SplitResult where
  | ok (src : ShaderProgramSource)
  | oobWrite (line : String)
deriving DecidableEq

/-- The marker branch of the loop body (main.cpp lines 31-34): on a line
containing `"#shader"`, check `"vertex"` first, then `"fragment"`;
an unrecognized marker leaves the current type unchanged. -/
def updateType (line : String) (t : ShaderType) : ShaderType :=
  if containsSub line "vertex" then ShaderType.kVertex
  else if containsSub line "fragment" then ShaderType.kFragment
  else t

/-- The `while (getline(stream, line))` loop of `parse_shader`, with the
current type and the two stream accumulators threaded explicitly. -/
def parseLines : List String → ShaderType → String → String → SplitResult
  | [], _, v, f => SplitResult.ok ⟨v, f⟩
  | line :: rest, t, v, f =>
    if containsSub line "#shader" then
      parseLines rest (updateType line t) v f
    else
      match t with
      | ShaderType.kNone => SplitResult.oobWrite line
      | ShaderType.kVertex => parseLines rest t (v ++ line ++ "\n") f
      | ShaderType.kFragment => parseLines rest t v (f ++ line ++ "\n")

/-- `parse_shader` on the list of lines of the input file: the loop starts
with `type = kNone` and two empty accumulators, and the function returns
`{ss[0].str(), ss[1].str()}`. -/
def parse_shader (lines : List String) : SplitResult :=
  parseLines lines ShaderType.kNone "" ""

/-! ## Spec-side splitter

The spec (§4.1, §8) describes the splitter's output as: for each stage,
the concatenation, each line suffixed with a newline and in original file
order, of exactly those non-marker lines whose most recent preceding
applicable (stage-selecting) marker selected that stage.  The definitions
below follow that wording; `specTextFrom` tracks the most recent
applicable marker in its `cur` argument. -/

/-- The two shader stages of the spec's data model. -/
inductive Stage where
  | vertex
  | fragment
deriving DecidableEq

/-- A marker line: one containing the recognized marker token `"#shader"`. -/
def specMarker (l : String) : Bool :=
  containsSub l "#shader"

/-- Which stage a marker line selects: `"vertex"` selects the vertex stage,
otherwise `"fragment"` selects the fragment stage; an unrecognized marker
selects nothing. -/
def specStageOf (l : String) : Option Stage :=
  if containsSub l "vertex" then some Stage.vertex
  else if containsSub l "fragment" then some Stage.fragment
  else none

/-- Applying a marker line to the currently selected stage: an applicable
marker switches the selection, an unrecognized one leaves it unchanged. -/
def specSelect (cur : Option Stage) (l : String) : Option Stage :=
  match specStageOf l with
  | some s => some s
  | none => cur

/-- Spec-side accumulated text of stage `s`: concatenation, in original
order and each with a trailing newline, of exactly those non-marker lines
whose most recent preceding applicable marker (tracked in `cur`) selected
stage `s`. -/
def specTextFrom (s : Stage) : List String → Option Stage → String
  | [], _ => ""
  | l :: rest, cur =>
    if specMarker l then
      specTextFrom s rest (specSelect cur l)
    else
      (if cur = some s then l ++ "\n" else "") ++ specTextFrom s rest cur

/-- The `ShaderType` a selected stage corresponds to in the C++ enum. -/
def stageType : Stage → ShaderType
  | Stage.vertex => ShaderType.kVertex
  | Stage.fragment => ShaderType.kFragment

theorem updateType_stageType (l : String) (t : Stage) :
    updateType l (stageType t) = stageType ((specSelect (some t) l).getD t) := by
  unfold updateType specSelect specStageOf
  by_cases hv : containsSub l "vertex" = true
  · simp [hv, stageType]
  · by_cases hf : containsSub l "fragment" = true
    · simp [hv, hf, stageType]
    · simp [hv, hf]

theorem specSelect_some (l : String) (t : Stage) :
    specSelect (some t) l = some ((specSelect (some t) l).getD t) := by
  unfold specSelect
  cases specStageOf l <;> rfl

/-- Once a stage is selected, `parseLines` never reaches the out-of-bounds
case and computes exactly the spec-side per-stage concatenations, appended
to the accumulators. -/
theorem parseLines_spec (lines : List String) :
    ∀ (t : Stage) (v f : String),
      parseLines lines (stageType t) v f =
        SplitResult.ok ⟨v ++ specTextFrom Stage.vertex lines (some t),
                        f ++ specTextFrom Stage.fragment lines (some t)⟩ := by
  induction lines with
  | nil =>
    intro t v f
    simp [parseLines, specTextFrom, String.append_empty]
  | cons l rest ih =>
    intro t v f
    by_cases hm : containsSub l "#shader" = true
    · have hm' : specMarker l = true := hm
      simp only [parseLines]
      simp only [hm, if_true]
      rw [updateType_stageType l t]
      rw [ih ((specSelect (some t) l).getD t) v f]
      rw [specTextFrom, specTextFrom]
      simp only [hm', if_true]
      rw [← specSelect_some]
    · have hm' : specMarker l = false := by
        simpa [specMarker] using hm
      cases t with
      | vertex =>
        simp only [parseLines]
        simp only [hm, if_false]
        show parseLines rest (stageType Stage.vertex) (v ++ l ++ "\n") f = _
        rw [ih Stage.vertex (v ++ l ++ "\n") f]
        rw [specTextFrom, specTextFrom]
        simp only [hm', if_false]
        simp [String.append_assoc, String.empty_append]
      | fragment =>
        simp only [parseLines]
        simp only [hm, if_false]
        show parseLines rest (stageType Stage.fragment) v (f ++ l ++ "\n") = _
        rw [ih Stage.fragment v (f ++ l ++ "\n")]
        rw [specTextFrom, specTextFrom]
        simp only [hm', if_false]
        simp [String.append_assoc, String.empty_append]

/-! ## Claims about the splitter -/

/-- C1: the claim says `parse_shader` fails fast with a ParseError when a
body line occurs before any stage marker.  The code does not: on such an
input it executes `ss[(int)ShaderType::kNone] << line`, an out-of-bounds
write (undefined behavior), modeled here as `SplitResult.oobWrite`.  This
theorem evaluates the embedded code at the failing input: a one-line file
whose line is not a marker. -/
theorem parse_shader_oob_before_marker :
    parse_shader ["line1"] = SplitResult.oobWrite "line1" := rfl

/-- C3 counterexample: the claimed input uses `// vertex` and `// fragment`
as markers, but `parse_shader` only treats lines containing `"#shader"` as
markers; `// vertex` is a body line arriving while no stage is selected,
so the result is the out-of-bounds write, not the claimed ShaderSource. -/
theorem scenario1_slash_markers_cex :
    parse_shader ["// vertex", "A", "// fragment", "B"] ≠
      SplitResult.ok ⟨"A\n", "B\n"⟩ := by decide

/-- C3 (amended): with the marker lines the code actually recognizes
(`#shader vertex`, `#shader fragment`), the file with body lines `A` and
`B` splits into vertex text `"A\n"` and fragment text `"B\n"`. -/
theorem scenario1_shader_markers :
    parse_shader ["#shader vertex", "A", "#shader fragment", "B"] =
      SplitResult.ok ⟨"A\n", "B\n"⟩ := by decide

/-- C4: for every file whose first line is a stage-selecting marker line,
`parse_shader` succeeds and each stage's output equals the spec-side
concatenation (each line newline-suffixed, in original order) of exactly
those non-marker lines whose most recent preceding applicable marker
selected that stage. -/
theorem parse_shader_matches_spec (l0 : String) (rest : List String) (s0 : Stage)
    (hm : specMarker l0 = true) (hs : specStageOf l0 = some s0) :
    parse_shader (l0 :: rest) =
      SplitResult.ok ⟨specTextFrom Stage.vertex (l0 :: rest) none,
                      specTextFrom Stage.fragment (l0 :: rest) none⟩ := by
  have hm' : containsSub l0 "#shader" = true := hm
  have hupd : updateType l0 ShaderType.kNone = stageType s0 := by
    by_cases hv : containsSub l0 "vertex" = true
    · have hs0 : s0 = Stage.vertex := by
        unfold specStageOf at hs
        rw [if_pos hv] at hs
        exact (Option.some_inj.mp hs).symm
      subst hs0
      unfold updateType
      rw [if_pos hv]
      rfl
    · by_cases hf : containsSub l0 "fragment" = true
      · have hs0 : s0 = Stage.fragment := by
          unfold specStageOf at hs
          rw [if_neg hv, if_pos hf] at hs
          exact (Option.some_inj.mp hs).symm
        subst hs0
        unfold updateType
        rw [if_neg hv, if_pos hf]
        rfl
      · exfalso
        unfold specStageOf at hs
        rw [if_neg hv, if_neg hf] at hs
        exact Option.noConfusion hs
  have hsel : specSelect none l0 = some s0 := by
    unfold specSelect
    rw [hs]
  unfold parse_shader
  simp only [parseLines, hm', if_true]
  rw [hupd, parseLines_spec rest s0 "" ""]
  simp [specTextFrom, hm, hsel, String.empty_append]

/-- C4 witness: the theorem applied to the concrete file
`["#shader vertex", "A"]`. -/
theorem parse_shader_matches_spec_witness :
    specMarker "#shader vertex" = true ∧
    specStageOf "#shader vertex" = some Stage.vertex ∧
    parse_shader ["#shader vertex", "A"] =
      SplitResult.ok ⟨specTextFrom Stage.vertex ["#shader vertex", "A"] none,
                      specTextFrom Stage.fragment ["#shader vertex", "A"] none⟩ :=
  ⟨by decide, by decide,
    parse_shader_matches_spec "#shader vertex" ["A"] Stage.vertex
      (by decide) (by decide)⟩

/-- C7 counterexample: the claim says every file with no marker lines
produces empty strings for both stages; the file `["A"]` has no marker
lines, yet `parse_shader` performs the out-of-bounds write instead of
returning two empty strings. -/
theorem no_marker_nonempty_cex :
    (["A"].all (fun l => !specMarker l)) = true ∧
      parse_shader ["A"] ≠ SplitResult.ok ⟨"", ""⟩ := by decide

/-- C7 (amended): only the empty file (no lines at all) produces empty
strings for both stages; a nonempty file with no marker lines hits the
invalid-stage (out-of-bounds) append on its first line. -/
theorem no_marker_lines_behavior (l : String) (rest : List String) :
    parse_shader [] = SplitResult.ok ⟨"", ""⟩ ∧
      (containsSub l "#shader" = false →
        parse_shader (l :: rest) = SplitResult.oobWrite l) := by
  refine ⟨rfl, fun h => ?_⟩
  unfold parse_shader
  simp only [parseLines, h, Bool.false_eq_true, if_false]

/-- C7 witness: the theorem applied to the concrete non-marker line `"x"`. -/
theorem no_marker_lines_behavior_witness :
    containsSub "x" "#shader" = false ∧
      parse_shader ["x"] = SplitResult.oobWrite "x" :=
  ⟨by decide, (no_marker_lines_behavior "x" []).2 (by decide)⟩

/-- C10: a marker line (containing `"#shader"`) that contains both
`"vertex"` and `"fragment"` selects the vertex stage, because the vertex
substring check comes first in `parse_shader`. -/
theorem marker_vertex_precedence (l : String) (rest : List String)
    (t : ShaderType) (v f : String)
    (hm : containsSub l "#shader" = true)
    (hv : containsSub l "vertex" = true)
    (hf : containsSub l "fragment" = true) :
    parseLines (l :: rest) t v f = parseLines rest ShaderType.kVertex v f := by
  simp only [parseLines, hm, if_true]
  unfold updateType
  rw [if_pos hv]

/-- C10 witness: the theorem applied to the concrete marker line
`"#shader vertex fragment"`. -/
theorem marker_vertex_precedence_witness :
    containsSub "#shader vertex fragment" "#shader" = true ∧
    containsSub "#shader vertex fragment" "vertex" = true ∧
    containsSub "#shader vertex fragment" "fragment" = true ∧
    parseLines ["#shader vertex fragment"] ShaderType.kNone "" "" =
      parseLines [] ShaderType.kVertex "" "" :=
  ⟨by decide, by decide, by decide,
    marker_vertex_precedence "#shader vertex fragment" [] ShaderType.kNone "" ""
      (by decide) (by decide) (by decide)⟩

/-! ## GL model for the stage compiler and program linker

`compile_shader` and `create_shaders` (main.cpp lines 43-99) drive the GL
API.  The GL driver's verdicts are modeled by an environment `GLEnv`; the
calls the functions issue are recorded in a trace of `GLEvent`s.  Object
ids handed out by `glCreateShader`/`glCreateProgram` are modeled as a
fresh counter starting from nonzero values (GL returns nonzero ids on
success).  `glValidateProgram` sets a validation status, but the code
never queries it, so `GLEnv.validateOk` is never read below. -/

def GL_VERTEX_SHADER : Nat := 35633

def GL_FRAGMENT_SHADER : Nat := 35632

/-- The GL driver's behavior, as far as these two functions observe it. -/
structure GLEnv where
  compileOk : Nat → String → Bool
  linkOk : Bool
  validateOk : Bool
  compileLog : Nat → String → String
  linkLog : String

/-- One GL call (or one diagnostic print) issued by the embedded code. -/
inductive GLEvent where
  | createShader (ty id : Nat)
  | shaderSource (id : Nat) (src : String)
  | compileShader (id : Nat)
  | deleteShader (id : Nat)
  | createProgram (id : Nat)
  | attachShader (prog sh : Nat)
  | linkProgram (prog : Nat)
  | validateProgram (prog : Nat)
  | logError (msg : String)
deriving DecidableEq

/-- The stage name printed by the compile-failure diagnostic
(`type == GL_VERTEX_SHADER ? "vertex" : "fragment"`, main.cpp line 59). -/
def stageName (ty : Nat) : String :=
  if ty = GL_VERTEX_SHADER then "vertex" else "fragment"

/-- `compile_shader` (main.cpp lines 43-68): create a shader object, hand
it the source, compile; on `GL_COMPILE_STATUS == GL_FALSE` print the
stage-identifying message and the info log, delete the shader and return
0; otherwise return the shader id.  Returns (handle, next fresh id,
trace). -/
def compile_shader (env : GLEnv) (ty : Nat) (source : String) (fresh : Nat) :
    Nat × Nat × List GLEvent :=
  let id := fresh
  let ev := [GLEvent.createShader ty id, GLEvent.shaderSource id source,
             GLEvent.compileShader id]
  if env.compileOk ty source then
    (id, fresh + 1, ev)
  else
    (0, fresh + 1,
      ev ++ [GLEvent.logError ("Failed to compile!! " ++ stageName ty ++ " shader"),
             GLEvent.logError (env.compileLog ty source),
             GLEvent.deleteShader id])

/-- Outcome of `create_shaders`: either an `assert` fired (a stage failed
to compile, so `assert(vs)`/`assert(fs)` aborts), or the function returned
the given `unsigned int` handle (0 meaning invalid). -/
inductive BuildOutcome where
  | assertFailed
  | handle (h : Nat)
deriving DecidableEq

/-- Program id handed out by `glCreateProgram` in the model. -/
def programId : Nat := 1

/-- Shader id handed out for the vertex stage in the model. -/
def vsId : Nat := 2

/-- Shader id handed out for the fragment stage in the model. -/
def fsId : Nat := 3

/-- `create_shaders` (main.cpp lines 70-99): create a program, compile the
two stages (each guarded by `assert`), attach both, link, validate, then
query `GL_LINK_STATUS` only.  On link failure print the info log and
return 0 — without deleting the stage shaders.  On link success delete
both stage shaders and return the program id.  The validation status is
never queried. -/
def create_shaders (env : GLEnv) (vertex_shader fragment_shader : String) :
    BuildOutcome × List GLEvent :=
  let ev0 := [GLEvent.createProgram programId]
  let rv := compile_shader env GL_VERTEX_SHADER vertex_shader vsId
  let vs := rv.1
  if vs = 0 then
    (BuildOutcome.assertFailed, ev0 ++ rv.2.2)
  else
    let rf := compile_shader env GL_FRAGMENT_SHADER fragment_shader rv.2.1
    let fs := rf.1
    if fs = 0 then
      (BuildOutcome.assertFailed, ev0 ++ rv.2.2 ++ rf.2.2)
    else
      let ev1 := ev0 ++ rv.2.2 ++ rf.2.2 ++
        [GLEvent.attachShader programId vs, GLEvent.attachShader programId fs,
         GLEvent.linkProgram programId, GLEvent.validateProgram programId]
      if env.linkOk then
        (BuildOutcome.handle programId,
          ev1 ++ [GLEvent.deleteShader vs, GLEvent.deleteShader fs])
      else
        (BuildOutcome.handle 0, ev1 ++ [GLEvent.logError env.linkLog])

/-! ## Claims about the compiler and linker -/

/-- All driver verdicts succeed. -/
def envAllOk : GLEnv := ⟨fun _ _ => true, true, true, fun _ _ => "", ""⟩

/-- Compilation and link succeed, validation fails. -/
def envValidateFails : GLEnv := ⟨fun _ _ => true, true, false, fun _ _ => "", ""⟩

/-- Compilation succeeds, link fails. -/
def envLinkFails : GLEnv := ⟨fun _ _ => true, false, true, fun _ _ => "", "linklog"⟩

/-- Every compilation fails. -/
def envCompileFails : GLEnv := ⟨fun _ _ => false, true, true, fun _ _ => "complog", ""⟩

/-- C2 counterexample: the claim says the handle is valid only if
validation against current state succeeded.  In an environment where both
compilations and the link succeed but validation fails, `create_shaders`
still returns the nonzero program handle: the code calls
`glValidateProgram` but never queries `GL_VALIDATE_STATUS`. -/
theorem create_shaders_ignores_validation_cex :
    envValidateFails.validateOk = false ∧
      (create_shaders envValidateFails "v" "f").1 = BuildOutcome.handle programId ∧
      programId ≠ 0 := by decide

/-- C2 (amended): the handle returned by `create_shaders` is the nonzero
program id exactly when both stage compilations and the link succeed; a
link failure yields handle 0, a compile failure trips `assert` and aborts,
and the validation verdict is never consulted (it cannot affect the
outcome). -/
theorem create_shaders_handle_characterization (env : GLEnv) (v f : String) :
    (create_shaders env v f).1 =
      (if env.compileOk GL_VERTEX_SHADER v = false then BuildOutcome.assertFailed
       else if env.compileOk GL_FRAGMENT_SHADER f = false then BuildOutcome.assertFailed
       else if env.linkOk then BuildOutcome.handle programId
       else BuildOutcome.handle 0) ∧
    programId ≠ 0 ∧
    (∀ b : Bool,
      create_shaders ⟨env.compileOk, env.linkOk, b, env.compileLog, env.linkLog⟩ v f =
        create_shaders env v f) := by
  refine ⟨?_, by decide, ?_⟩
  · by_cases h1 : env.compileOk GL_VERTEX_SHADER v = true
    · by_cases h2 : env.compileOk GL_FRAGMENT_SHADER f = true
      · by_cases h3 : env.linkOk = true
        · simp [create_shaders, compile_shader, h1, h2, h3, vsId, fsId]
        · simp [create_shaders, compile_shader, h1, h2, h3, vsId, fsId]
      · simp [create_shaders, compile_shader, h1, h2, vsId, fsId]
    · simp [create_shaders, compile_shader, h1, vsId]
  · intro b
    cases env
    simp [create_shaders, compile_shader]

/-- C5 counterexample: the claim says both stage handles are released
regardless of link outcome; in an environment where the link fails, the
trace of `create_shaders` contains no `glDeleteShader` call at all. -/
theorem stage_handles_leak_on_link_failure_cex :
    envLinkFails.linkOk = false ∧
      GLEvent.deleteShader vsId ∉ (create_shaders envLinkFails "v" "f").2 ∧
      GLEvent.deleteShader fsId ∉ (create_shaders envLinkFails "v" "f").2 := by decide

/-- C5 (amended): when both stages compile, `create_shaders` calls
`glDeleteShader` on both stage handles if and only if the link succeeds;
on link failure it returns without releasing either stage handle. -/
theorem stage_handles_released_iff_link_ok (env : GLEnv) (v f : String)
    (h1 : env.compileOk GL_VERTEX_SHADER v = true)
    (h2 : env.compileOk GL_FRAGMENT_SHADER f = true) :
    (env.linkOk = true →
      GLEvent.deleteShader vsId ∈ (create_shaders env v f).2 ∧
      GLEvent.deleteShader fsId ∈ (create_shaders env v f).2) ∧
    (env.linkOk = false →
      ∀ id, GLEvent.deleteShader id ∉ (create_shaders env v f).2) := by
  constructor
  · intro h3
    simp [create_shaders, compile_shader, h1, h2, h3, vsId, fsId]
  · intro h3
    intro id
    simp [create_shaders, compile_shader, h1, h2, h3, vsId, fsId]

/-- C5 witness: the amended theorem applied to the all-success
environment: on link success both stage handles are deleted. -/
theorem stage_handles_released_iff_link_ok_witness :
    GLEvent.deleteShader vsId ∈ (create_shaders envAllOk "v" "f").2 ∧
      GLEvent.deleteShader fsId ∈ (create_shaders envAllOk "v" "f").2 :=
  (stage_handles_released_iff_link_ok envAllOk "v" "f" rfl rfl).1 rfl

/-- C6: when the driver rejects a stage's source, `compile_shader` returns
the invalid handle 0 (never a nonzero one), its trace surfaces the
diagnostic naming the correct stage kind (`"vertex"` for
`GL_VERTEX_SHADER`, `"fragment"` for `GL_FRAGMENT_SHADER`) together with
the driver's info log, and it deletes the partially-created shader object
before returning. -/
theorem compile_shader_failure_behavior (env : GLEnv) (ty : Nat) (src : String)
    (fresh : Nat) (hfail : env.compileOk ty src = false) :
    (compile_shader env ty src fresh).1 = 0 ∧
    GLEvent.logError ("Failed to compile!! " ++ stageName ty ++ " shader")
      ∈ (compile_shader env ty src fresh).2.2 ∧
    GLEvent.logError (env.compileLog ty src) ∈ (compile_shader env ty src fresh).2.2 ∧
    GLEvent.deleteShader fresh ∈ (compile_shader env ty src fresh).2.2 ∧
    stageName GL_VERTEX_SHADER = "vertex" ∧
    stageName GL_FRAGMENT_SHADER = "fragment" := by
  refine ⟨?_, ?_, ?_, ?_, by decide, by decide⟩ <;>
    simp [compile_shader, hfail]

/-- C6 witness: the theorem applied to a concrete always-failing driver
compiling a vertex-stage source. -/
theorem compile_shader_failure_behavior_witness :
    (compile_shader envCompileFails GL_VERTEX_SHADER "bad" 7).1 = 0 ∧
    GLEvent.logError ("Failed to compile!! " ++ stageName GL_VERTEX_SHADER ++ " shader")
      ∈ (compile_shader envCompileFails GL_VERTEX_SHADER "bad" 7).2.2 ∧
    GLEvent.logError (envCompileFails.compileLog GL_VERTEX_SHADER "bad")
      ∈ (compile_shader envCompileFails GL_VERTEX_SHADER "bad" 7).2.2 ∧
    GLEvent.deleteShader 7 ∈ (compile_shader envCompileFails GL_VERTEX_SHADER "bad" 7).2.2 ∧
    stageName GL_VERTEX_SHADER = "vertex" ∧
    stageName GL_FRAGMENT_SHADER = "fragment" :=
  compile_shader_failure_behavior envCompileFails GL_VERTEX_SHADER "bad" 7 rfl

/-! ## glm math model (real-valued)

The render loop of `main` computes its transforms with glm over `float`;
the embedding idealizes `float` as `ℝ` and follows glm's definitions of
`translate`, `rotate` (including axis normalization), `lookAt` and
`perspective`.  Matrices are column-major as in glm: `m j` is column `j`
and `m j i` is the entry in row `i` of column `j`. -/

/-- glm `vec3` over the reals. -/
structure Vec3R where
  x : ℝ
  y : ℝ
  z : ℝ

/-- glm `vec4` over the reals, indexed by row. -/
abbrev Vec4 := Fin 4 → ℝ

/-- glm `mat4`, column-major: `m j` is column `j`. -/
abbrev Mat4 := Fin 4 → Vec4

/-- `glm::mat4(1.0f)`: the identity matrix. -/
noncomputable def mat4_id : Mat4 :=
  fun j i => if i = j then 1 else 0

/-- glm `dot` on vec3. -/
noncomputable def vdot (a b : Vec3R) : ℝ :=
  a.x * b.x + a.y * b.y + a.z * b.z

/-- glm `cross` on vec3. -/
noncomputable def vcross (a b : Vec3R) : Vec3R :=
  ⟨a.y * b.z - a.z * b.y, a.z * b.x - a.x * b.z, a.x * b.y - a.y * b.x⟩

/-- Componentwise vec3 subtraction. -/
noncomputable def vsub (a b : Vec3R) : Vec3R :=
  ⟨a.x - b.x, a.y - b.y, a.z - b.z⟩

/-- glm `normalize` on vec3. -/
noncomputable def vnormalize (v : Vec3R) : Vec3R :=
  ⟨v.x / Real.sqrt (vdot v v), v.y / Real.sqrt (vdot v v),
   v.z / Real.sqrt (vdot v v)⟩

/-- `glm::radians`: degrees to radians. -/
noncomputable def glm_radians (deg : ℝ) : ℝ :=
  deg * (Real.pi / 180)

/-- `glm::translate(m, v)`: columns 0-2 are kept, column 3 becomes
`m[0]*v.x + m[1]*v.y + m[2]*v.z + m[3]`. -/
noncomputable def glm_translate (m : Mat4) (v : Vec3R) : Mat4 :=
  fun j =>
    if j = 3 then
      (fun i => m 0 i * v.x + m 1 i * v.y + m 2 i * v.z + m 3 i)
    else m j

/-- `glm::rotate(m, angle, v)`: build the 3x3 rotation block from
`c = cos angle`, `s = sin angle` and the normalized axis, then combine the
first three columns of `m` with it; column 3 is `m[3]` unchanged. -/
noncomputable def glm_rotate (m : Mat4) (angle : ℝ) (v : Vec3R) : Mat4 :=
  let c := Real.cos angle
  let s := Real.sin angle
  let a := vnormalize v
  let tx := (1 - c) * a.x
  let ty := (1 - c) * a.y
  let tz := (1 - c) * a.z
  let r00 := c + tx * a.x
  let r01 := tx * a.y + s * a.z
  let r02 := tx * a.z - s * a.y
  let r10 := ty * a.x - s * a.z
  let r11 := c + ty * a.y
  let r12 := ty * a.z + s * a.x
  let r20 := tz * a.x + s * a.y
  let r21 := tz * a.y - s * a.x
  let r22 := c + tz * a.z
  fun j =>
    if j = 0 then (fun i => m 0 i * r00 + m 1 i * r01 + m 2 i * r02)
    else if j = 1 then (fun i => m 0 i * r10 + m 1 i * r11 + m 2 i * r12)
    else if j = 2 then (fun i => m 0 i * r20 + m 1 i * r21 + m 2 i * r22)
    else m 3

/-- `glm::lookAt(eye, center, up)` (right-handed). -/
noncomputable def glm_lookAt (eye center up : Vec3R) : Mat4 :=
  let f := vnormalize (vsub center eye)
  let s := vnormalize (vcross f up)
  let u := vcross s f
  fun j i =>
    if j = 3 then
      (if i = 0 then -(vdot s eye)
       else if i = 1 then -(vdot u eye)
       else if i = 2 then vdot f eye
       else 1)
    else
      (if i = 0 then (if j = 0 then s.x else if j = 1 then s.y else s.z)
       else if i = 1 then (if j = 0 then u.x else if j = 1 then u.y else u.z)
       else if i = 2 then (if j = 0 then -f.x else if j = 1 then -f.y else -f.z)
       else 0)

/-- `glm::perspective(fovy, aspect, zNear, zFar)` (right-handed, clip
space `[-1, 1]`). -/
noncomputable def glm_perspective (fovy aspect zNear zFar : ℝ) : Mat4 :=
  let tanHalfFovy := Real.tan (fovy / 2)
  fun j i =>
    if j = 0 then (if i = 0 then 1 / (aspect * tanHalfFovy) else 0)
    else if j = 1 then (if i = 1 then 1 / tanHalfFovy else 0)
    else if j = 2 then
      (if i = 2 then -(zFar + zNear) / (zFar - zNear)
       else if i = 3 then -1 else 0)
    else (if i = 2 then -(2 * zFar * zNear) / (zFar - zNear) else 0)

/-! ## The cube demo's per-frame data (`main`, main.cpp lines 192-197 and
255-327) -/

/-- The ten instance offsets `cubePositions` of main.cpp lines 192-197,
with the float literals read as exact rationals. -/
def cubePositionsQ : Fin 10 → ℚ × ℚ × ℚ :=
  ![(0, 0, 0), (2, 5, -15), (-1.5, -2.2, -2.5), (-3.8, -2, -12.3),
    (2.4, -0.4, -3.5), (-1.7, 3, -7.5), (1.3, -2, -2.5), (1.5, 2, -2.5),
    (1.5, 0.2, -1.5), (-1.3, 1, -1.5)]

/-- `cubePositions[i]` as a real vector. -/
noncomputable def cubePositions (i : Fin 10) : Vec3R :=
  ⟨((cubePositionsQ i).1 : ℝ), ((cubePositionsQ i).2.1 : ℝ),
   ((cubePositionsQ i).2.2 : ℝ)⟩

/-- The per-instance model matrix of the draw loop (main.cpp lines
312-316): starting from the identity, translate by `cubePositions[i]`,
then rotate by `radians(20 * i)` about axis `(1, 0.3, 0.5)`. -/
noncomputable def modelMatrix (i : Fin 10) : Mat4 :=
  glm_rotate (glm_translate mat4_id (cubePositions i))
    (glm_radians (20 * ((i : ℕ) : ℝ))) ⟨1, 0.3, 0.5⟩

/-- The time-based model matrix computed at main.cpp lines 269-271. It is
shadowed by the loop-local `model` of the draw loop and never uploaded;
it is defined here only to document that it plays no role in the events. -/
noncomputable def unusedTimeModel (t : ℝ) : Mat4 :=
  glm_rotate mat4_id (t * glm_radians 50) ⟨0, 1, 0⟩

/-- The view matrix of one frame at time `t` (main.cpp lines 290-294):
a lookAt from the orbiting eye `(sin t * 10, 0, cos t * 10)` toward the
origin with up `(0, 1, 0)`. -/
noncomputable def viewMatrix (t : ℝ) : Mat4 :=
  glm_lookAt ⟨Real.sin t * 10, 0, Real.cos t * 10⟩ ⟨0, 0, 0⟩ ⟨0, 1, 0⟩

/-- The fixed projection matrix (main.cpp lines 297-299). -/
noncomputable def projectionMatrix : Mat4 :=
  glm_perspective (glm_radians 45) (800 / 600) 0.1 100

/-- One observable action of a frame-loop iteration. -/
inductive FrameEvent where
  | inputCheck
  | clearBuffers
  | activeTexture (unit : Nat)
  | bindTexture (id : Nat)
  | pushUniformMat (nm : String) (m : Mat4)
  | drawArrays (first count : Nat)
  | swapBuffers
  | pollEvents

/-- The events of one frame-loop iteration at time `t`, in the order the
body of `while (!glfwWindowShouldClose(window))` performs them
(main.cpp lines 255-327): input check, clear, texture bind, view and
projection uniform pushes, then for each of the ten instances a model
uniform push followed by a 36-vertex draw call, then swap and poll. -/
noncomputable def frameEvents (t : ℝ) : List FrameEvent :=
  [FrameEvent.inputCheck, FrameEvent.clearBuffers,
   FrameEvent.activeTexture 0, FrameEvent.bindTexture 1,
   FrameEvent.pushUniformMat "view" (viewMatrix t),
   FrameEvent.pushUniformMat "projection" projectionMatrix] ++
  (List.finRange 10).bind
    (fun i => [FrameEvent.pushUniformMat "model" (modelMatrix i),
               FrameEvent.drawArrays 0 36]) ++
  [FrameEvent.swapBuffers, FrameEvent.pollEvents]

/-- Recognizes draw-call events. -/
def isDrawCall : FrameEvent → Bool
  | FrameEvent.drawArrays _ _ => true
  | _ => false

/-- Extracts the matrix of a `"model"` uniform push. -/
def modelPush : FrameEvent → Option Mat4
  | FrameEvent.pushUniformMat nm m => if nm = "model" then some m else none
  | _ => none

/-- External inputs to the frame loop: per iteration, whether ESCAPE is
down during the input check, whether the window system requests closing
during event polling, and the clock value `glfwGetTime()` reads. -/
structure LoopInputs where
  escPressed : Nat → Bool
  winCloseRequested : Nat → Bool
  time : Nat → ℝ

/-- The `while (!glfwWindowShouldClose(window))` loop, fuel-indexed:
at the top of iteration `k` the should-close flag is observed; if it is
set the loop exits, otherwise the whole iteration body runs and the flag
for the next observation picks up an ESCAPE press (set by
`process_input`) or a window-system close request (set during
`glfwPollEvents`). -/
noncomputable def loopFrom (inp : LoopInputs) : Nat → Nat → Bool → List FrameEvent
  | 0, _, _ => []
  | fuel + 1, k, flag =>
    if flag then []
    else
      frameEvents (inp.time k) ++
        loopFrom inp fuel (k + 1) (inp.escPressed k || inp.winCloseRequested k)

/-- Constant loop inputs: no key presses, no close requests, clock 0. -/
noncomputable def constInputs : LoopInputs :=
  ⟨fun _ => false, fun _ => false, fun _ => 0⟩

/-! ## Claims about the frame loop -/

theorem glm_rotate_col3 (m : Mat4) (a : ℝ) (v : Vec3R) :
    glm_rotate m a v 3 = m 3 := rfl

/-- Column 3 of a per-instance model matrix carries the instance's
translation: `glm_rotate` keeps column 3 of its input, and
`glm_translate` of the identity puts the position there. -/
theorem modelMatrix_col3 (i : Fin 10) (r : Fin 4) :
    modelMatrix i 3 r =
      (if r = 0 then (cubePositions i).x
       else if r = 1 then (cubePositions i).y
       else if r = 2 then (cubePositions i).z else 1) := by
  show (glm_translate mat4_id (cubePositions i)) 3 r = _
  fin_cases r <;> simp [glm_translate, mat4_id]

theorem cubePositionsQ_inj : Function.Injective cubePositionsQ := by
  intro i j h
  fin_cases i <;> fin_cases j <;>
    first
      | rfl
      | (exfalso
         rw [Prod.ext_iff, Prod.ext_iff] at h
         norm_num [cubePositionsQ] at h)

theorem vec3r_eq_of_comps (a b : Vec3R) (hx : a.x = b.x) (hy : a.y = b.y)
    (hz : a.z = b.z) : a = b := by
  cases a
  cases b
  simp_all

theorem cubePositions_inj : Function.Injective cubePositions := by
  intro i j h
  apply cubePositionsQ_inj
  have hx : ((cubePositionsQ i).1 : ℝ) = ((cubePositionsQ j).1 : ℝ) :=
    congrArg Vec3R.x h
  have hy : ((cubePositionsQ i).2.1 : ℝ) = ((cubePositionsQ j).2.1 : ℝ) :=
    congrArg Vec3R.y h
  have hz : ((cubePositionsQ i).2.2 : ℝ) = ((cubePositionsQ j).2.2 : ℝ) :=
    congrArg Vec3R.z h
  exact Prod.ext (Rat.cast_injective hx)
    (Prod.ext (Rat.cast_injective hy) (Rat.cast_injective hz))

theorem modelMatrix_inj : Function.Injective modelMatrix := by
  intro i j h
  apply cubePositions_inj
  have hx : (cubePositions i).x = (cubePositions j).x := by
    have h0 := congrFun (congrFun h 3) 0
    rw [modelMatrix_col3, modelMatrix_col3] at h0
    simpa using h0
  have hy : (cubePositions i).y = (cubePositions j).y := by
    have h1 := congrFun (congrFun h 3) 1
    rw [modelMatrix_col3, modelMatrix_col3] at h1
    simpa using h1
  have hz : (cubePositions i).z = (cubePositions j).z := by
    have h2 := congrFun (congrFun h 3) 2
    rw [modelMatrix_col3, modelMatrix_col3] at h2
    simpa using h2
  exact vec3r_eq_of_comps _ _ hx hy hz

/-- C8: in every frame-loop iteration (any clock value `t`) exactly ten
draw calls are issued, the sequence of `"model"` uniform pushes is exactly
`modelMatrix 0, …, modelMatrix 9` — the matrix pushed before draw call `i`
is `translate(cubePositions[i])` then `rotate(radians(20°*i), (1,0.3,0.5))`
applied to the identity, recomputed from `i` alone in that iteration — and
distinct instances get distinct matrices. -/
theorem frame_model_matrices :
    (∀ t : ℝ, (frameEvents t).countP isDrawCall = 10 ∧
      (frameEvents t).filterMap modelPush = (List.finRange 10).map modelMatrix) ∧
    (∀ i j : Fin 10, i ≠ j → modelMatrix i ≠ modelMatrix j) :=
  ⟨fun _ => ⟨rfl, rfl⟩, fun _ _ hij hm => hij (modelMatrix_inj hm)⟩

/-- C8 witness: instances 0 and 1 are distinct and get distinct model
matrices. -/
theorem frame_model_matrices_witness :
    (0 : Fin 10) ≠ 1 ∧ modelMatrix 0 ≠ modelMatrix 1 :=
  ⟨by decide, frame_model_matrices.2 0 1 (by decide)⟩

/-- C9: the frame loop exits exactly when the should-close flag is
observed true at the top of an iteration: with the flag set it emits
nothing further, with the flag clear it emits one complete iteration body
— the fixed sequence input check, clear, texture bind, view/projection
pushes, ten model-push/draw pairs, swap, poll, with no branch that could
cut it short — and then continues with the flag as updated by that
iteration's input check and event poll. -/
theorem frame_loop_exit_and_completion (inp : LoopInputs) (fuel k : Nat)
    (flag : Bool) :
    (flag = true → loopFrom inp (fuel + 1) k flag = []) ∧
    (flag = false → loopFrom inp (fuel + 1) k flag =
      frameEvents (inp.time k) ++
        loopFrom inp fuel (k + 1) (inp.escPressed k || inp.winCloseRequested k)) ∧
    frameEvents (inp.time k) =
      [FrameEvent.inputCheck, FrameEvent.clearBuffers,
       FrameEvent.activeTexture 0, FrameEvent.bindTexture 1,
       FrameEvent.pushUniformMat "view" (viewMatrix (inp.time k)),
       FrameEvent.pushUniformMat "projection" projectionMatrix] ++
      (List.finRange 10).bind
        (fun i => [FrameEvent.pushUniformMat "model" (modelMatrix i),
                   FrameEvent.drawArrays 0 36]) ++
      [FrameEvent.swapBuffers, FrameEvent.pollEvents] := by
  refine ⟨fun h => ?_, fun h => ?_, rfl⟩
  · subst h
    simp [loopFrom]
  · subst h
    simp [loopFrom]

/-- C9 witness: the theorem applied to constant inputs, flag set: the loop
emits nothing. -/
theorem frame_loop_exit_witness :
    loopFrom constInputs 1 0 true = [] :=
  (frame_loop_exit_and_completion constInputs 0 0 true).1 rfl
